import Mathlib

/-!
# Tabular-to-GeoJSON conversion pipeline: a shallow embedding

This file embeds the row-to-Feature conversion logic of the repository's
four scripts and proves the spec's testable properties about it.

Embedded source files:
* `data/convert-marathons-to-geojson.py` — `clean_coordinate`, `clean_text`,
  `parse_date`, `convert_csv_to_geojson`;
* `data/update-marathon-data.py` — `download_and_convert` runs the identical
  per-row loop (its replacement table is the mojibake-shifted copy of the
  same table);
* `scripts/update-marathon-data.py` — `fetch_and_convert_to_geojson`
  (pandas variant with an explicit coordinate range check);
* `scripts/csv_to_geojson.py` — `fetch_and_convert_solar` /
  `fetch_and_convert_medical` (pandas variants with flexible column sniffing).

Modelling conventions:
* Python `str` is Lean `String`; the `str` methods the scripts use
  (`strip`, `upper`, `lower`, `split`, `replace`, `zfill`, `in`) are given
  structurally recursive `List Char` implementations below, faithful on
  the data these scripts handle (`strip`/`upper`/`lower` cover the ASCII
  whitespace and letters of the inputs).
* Python `float(s)` is modelled by `parseDecimal`, the plain
  decimal-literal fragment of `float` (optional sign, digits, optional
  fractional part); exponents, `inf`/`nan` and underscores are outside
  the modelled fragment.  Coordinates are `ℚ`.
* A `csv.DictReader` row is an association list with `''` as the default
  for missing keys, mirroring `row.get(k, '')`.
* A pandas DataFrame is a column-name list plus positional rows of
  `Option String` cells, `none` standing for NaN.
-/

namespace MapboxVT

/-! ## Python string primitives -/

/-- Python `str.strip()` on a character list. -/
def stripChars (s : List Char) : List Char :=
  ((s.dropWhile Char.isWhitespace).reverse.dropWhile Char.isWhitespace).reverse

/-- Python `str.strip()`. -/
def pyStrip (s : String) : String := String.mk (stripChars s.toList)

/-- Python `str.upper()`. -/
def pyUpper (s : String) : String := String.mk (s.toList.map Char.toUpper)

/-- Python `str.lower()`. -/
def pyLower (s : String) : String := String.mk (s.toList.map Char.toLower)

/-- Python's substring test `p in s` on character lists. -/
def containsSub (p : List Char) : List Char → Bool
  | [] => p.isEmpty
  | c :: cs => p.isPrefixOf (c :: cs) || containsSub p cs

/-- Python's substring test `needle in hay`. -/
def substrOf (needle hay : String) : Bool :=
  containsSub needle.toList hay.toList

/-- Worker for `pyReplace`, fuelled to be structurally recursive: one unit
of fuel per consumed character, so `s.length` fuel always suffices. -/
def pyReplaceGo (p r : List Char) : Nat → List Char → List Char
  | _, [] => []
  | 0, s => s
  | n + 1, c :: cs =>
    if p.isPrefixOf (c :: cs) then r ++ pyReplaceGo p r n (cs.drop (p.length - 1))
    else c :: pyReplaceGo p r n cs

/-- Python `str.replace(pattern, repl)` on character lists: scan left to
right, replace each non-overlapping occurrence of `p`, continue after the
replaced occurrence.  (All patterns used in this file are non-empty; the
empty-pattern branch returns the string unchanged.) -/
def pyReplace (p r s : List Char) : List Char :=
  match p with
  | [] => s
  | _ :: _ => pyReplaceGo p r s.length s

/-- Python `str.split(sep)` for a single-character separator. -/
def pySplit (sep : Char) : List Char → List (List Char)
  | [] => [[]]
  | c :: cs =>
    if c = sep then [] :: pySplit sep cs
    else
      match pySplit sep cs with
      | [] => [[c]]
      | g :: gs => (c :: g) :: gs

/-- Python `str.zfill(w)`: left-pad with `'0'` to width `w`, keeping a
leading sign in front of the padding. -/
def zfill (w : Nat) (s : List Char) : List Char :=
  if w ≤ s.length then s
  else
    match s with
    | [] => List.replicate w '0'
    | c :: cs =>
      if c = '-' ∨ c = '+' then c :: (List.replicate (w - s.length) '0' ++ cs)
      else List.replicate (w - s.length) '0' ++ (c :: cs)

/-! ## Field-cleaning functions (data/convert-marathons-to-geojson.py) -/

/-- The decimal-literal fragment of Python `float`: optional sign, integer
digits, optional `.` and fraction digits; at least one digit overall. -/
def parseDecimal (cs : List Char) : Option ℚ :=
  let signAndRest : Int × List Char :=
    match cs with
    | [] => (1, [])
    | c :: rest =>
      if c = '-' then (-1, rest)
      else if c = '+' then (1, rest)
      else (1, c :: rest)
  let sign := signAndRest.1
  let body := signAndRest.2
  let intDigits := body.takeWhile Char.isDigit
  let rest := body.dropWhile Char.isDigit
  let digitsVal : List Char → Nat := fun ds =>
    ds.foldl (fun n c => n * 10 + (c.toNat - '0'.toNat)) 0
  match rest with
  | [] =>
    if intDigits.isEmpty then none
    else some (mkRat (sign * digitsVal intDigits) 1)
  | c :: fracDigits =>
    if c = '.' && fracDigits.all Char.isDigit && !(intDigits.isEmpty && fracDigits.isEmpty) then
      some (mkRat (sign * (digitsVal intDigits * 10 ^ fracDigits.length + digitsVal fracDigits))
        (10 ^ fracDigits.length))
    else none

/-- `clean_coordinate` (data/convert-marathons-to-geojson.py lines 11-22):
empty or blank input yields `None`; the Unicode minus sign U+2212 is
replaced by ASCII `-`; the stripped result is parsed as a decimal number,
with a parse failure yielding `None`. -/
def clean_coordinate (coord_str : String) : Option ℚ :=
  if coord_str = "" ∨ pyStrip coord_str = "" then none
  else parseDecimal (stripChars (pyReplace ['−'] ['-'] coord_str.toList))

/-- The fixed replacement table of `clean_text`
(data/convert-marathons-to-geojson.py lines 30-42), in source order:
eight two-character mojibake accents, then apostrophe, left quote,
right quote, en dash and em dash.  The en- and em-dash patterns are the
file's literal bytes: `['â', '€', '"']` (U+00E2, U+20AC, U+0022) — both
identical, and both extending the right-quote pattern `['â', '€']`. -/
def cleanTextTable : List (List Char × List Char) :=
  [ (['Ã', '©'], ['é'])
  , (['Ã', '¨'], ['è'])
  , (['Ã', '¡'], ['á'])
  , (['Ã', '­'], ['í'])
  , (['Ã', '³'], ['ó'])
  , (['Ã', '¼'], ['ü'])
  , (['Ã', '±'], ['ñ'])
  , (['Ã', '§'], ['ç'])
  , (['â', '€', '™'], [Char.ofNat 39])
  , (['â', '€', 'œ'], ['"'])
  , (['â', '€'], ['"'])
  , (['â', '€', '"'], ['–'])
  , (['â', '€', '"'], ['—'])
  ]

/-- Apply a list of replacement-table entries, in order. -/
def applyTable (entries : List (List Char × List Char)) (s : List Char) : List Char :=
  entries.foldl (fun acc e => pyReplace e.1 e.2 acc) s

/-- `clean_text` (data/convert-marathons-to-geojson.py lines 24-44):
falsy (empty) input yields `""`; otherwise apply the replacement table
and strip. -/
def clean_text (text : String) : String :=
  if text = "" then ""
  else String.mk (stripChars (applyTable cleanTextTable text.toList))

/-- `parse_date` (data/convert-marathons-to-geojson.py lines 46-65, and
identically data/update-marathon-data.py lines 52-71): empty or blank
input yields `None`; a stripped input containing `/` that splits into
exactly three parts is reassembled as `year-month-day` with `zfill 2`
on month and day; anything else is returned stripped.  (The source's
`try`/`except` wrapper can never fire and is not modelled.) -/
def parse_date (date_str : String) : Option String :=
  if date_str = "" ∨ pyStrip date_str = "" then none
  else
    let d := stripChars date_str.toList
    if d.contains '/' then
      match pySplit '/' d with
      | [day, month, year] =>
        some (String.mk (year ++ '-' :: zfill 2 month ++ '-' :: zfill 2 day))
      | _ => some (String.mk d)
    else some (String.mk d)

/-! ## The marathon CSV converter -/

/-- A `csv.DictReader` row: association list from column name to raw cell
text; `Row.get` mirrors `row.get(key, '')`. -/
def Row : Type := List (String × String)

def Row.get (r : Row) (k : String) : String :=
  match r.find? (fun p => p.1 = k) with
  | some p => p.2
  | none => ""

/-- A GeoJSON Point feature: `coords` is the `coordinates` array of the
geometry, `props` the `properties` object (a `none` value is JSON
`null`, as produced by `parse_date` on empty input). -/
structure Feature where
  coords : List ℚ
  props : List (String × Option String)
deriving DecidableEq, Repr

structure FeatureCollection where
  features : List Feature
deriving DecidableEq, Repr

/-- Loop state of `convert_csv_to_geojson`: the feature list and the two
tallies. -/
structure ConvState where
  features : List Feature
  skipped : Nat
  processed : Nat
deriving DecidableEq, Repr

/-- One iteration's decision in `convert_csv_to_geojson`
(data/convert-marathons-to-geojson.py lines 77-131): `none` means the row
is skipped (`continue` after `skipped_count += 1`), `some f` means the
feature `f` is appended and `processed_count` incremented. -/
def processRow (row : Row) : Option Feature :=
  let show_value := pyUpper (pyStrip (Row.get row "show?"))
  if show_value ≠ "TRUE" then none
  else
    let lat_str := pyStrip (Row.get row "lat")
    let lon_str := pyStrip (Row.get row "lon")
    match clean_coordinate lat_str, clean_coordinate lon_str with
    | some lat, some lon =>
      let name := clean_text (Row.get row "Name")
      let city := clean_text (Row.get row "City")
      if name = "" ∨ name = "#REF!" ∨ city = "" ∨ city = "#REF!" then none
      else
        some
          { coords := [lon, lat]
          , props :=
              [ ("type", some "marathon")
              , ("name", some name)
              , ("city", some city)
              , ("country_iso", some (clean_text (Row.get row "ISO3")))
              , ("year", some (clean_text (Row.get row "Year")))
              , ("marathon_type", some (clean_text (Row.get row "Full / Half")))
              , ("date", parse_date (Row.get row "Date"))
              , ("signup_deadline", parse_date (Row.get row "Sign up deadlines"))
              , ("availability", some (clean_text (Row.get row "Availability")))
              , ("landing_page", some (clean_text (Row.get row "Landing Page")))
              , ("google_ads", some (clean_text (Row.get row "Google Ads")))
              , ("comments", some (clean_text (Row.get row "Comments")))
              , ("map_info_text", some (clean_text (Row.get row "Map Info Text")))
              ] }
    | _, _ => none

def convertStep (st : ConvState) (row : Row) : ConvState :=
  match processRow row with
  | none => { st with skipped := st.skipped + 1 }
  | some f => { st with features := st.features ++ [f], processed := st.processed + 1 }

/-- `convert_csv_to_geojson` (data/convert-marathons-to-geojson.py lines
67-137), restricted to its in-memory part: fold the per-row step over the
parsed rows starting from empty state.  (`data/update-marathon-data.py`
`download_and_convert` lines 87-156 runs the identical loop.) -/
def convert_csv_to_geojson (rows : List Row) : ConvState :=
  rows.foldl convertStep ⟨[], 0, 0⟩

/-! ## Pandas variants

A DataFrame is a list of column names plus positional rows; a `none`
cell is NaN (as `pd.read_csv` yields for an empty cell). -/

structure PTable where
  cols : List String
  rows : List (List (Option String))
deriving DecidableEq, Repr

/-- `df[c]` for one positional row: `none` when the column is absent or
the cell is NaN. -/
def getCell (cols : List String) (c : String) (row : List (Option String)) : Option String :=
  match cols.findIdx? (fun c2 => c2 = c) with
  | some i => row.getD i none
  | none => none

/-- Overwrite one cell of a positional row (pandas column assignment,
restricted to the row). -/
def setCell (cols : List String) (c : String) (v : Option String)
    (row : List (Option String)) : List (Option String) :=
  match cols.findIdx? (fun c2 => c2 = c) with
  | some i => row.set i v
  | none => row

/-- `pd.to_numeric(x, errors='coerce')` on one cell: NaN stays NaN,
a non-numeric string coerces to NaN. -/
def toNumeric (cell : Option String) : Option ℚ :=
  cell.bind (fun s => parseDecimal (stripChars s.toList))

/-- `scripts/update-marathon-data.py` lines 33-69, one `iterrows` body:
read `Longitude`/`Latitude` (a missing column raises `KeyError`, caught
by the per-row `except` — a skip, like the NaN check that follows), skip
NaN coordinates, skip coordinates outside `[-90,90]`/`[-180,180]`, then
build the feature with `coordinates = [lon, lat]` and all other columns
stringified. -/
def processRowUpdate (cols : List String) (row : List (Option String)) : Option Feature :=
  match toNumeric (getCell cols "Longitude" row), toNumeric (getCell cols "Latitude" row) with
  | some lon, some lat =>
    if ¬(-90 ≤ lat ∧ lat ≤ 90) ∨ ¬(-180 ≤ lon ∧ lon ≤ 180) then none
    else
      some
        { coords := [lon, lat]
        , props :=
            (cols.filter (fun c => c ≠ "Longitude" ∧ c ≠ "Latitude")).map
              (fun c => (c, some ((getCell cols c row).getD ""))) }
  | _, _ => none

/-- `fetch_and_convert_to_geojson` (scripts/update-marathon-data.py lines
9-85), restricted to its in-memory part: strip the column names, then
convert each row independently, dropping the rows the loop `continue`s
over. -/
def fetch_and_convert_to_geojson (t : PTable) : FeatureCollection :=
  let cols := t.cols.map pyStrip
  { features := t.rows.filterMap (processRowUpdate cols) }

/-! ### Flexible-schema variants (`scripts/csv_to_geojson.py`) -/

/-- Column-sniffing loop (scripts/csv_to_geojson.py lines 31-39 and
109-117): a single pass over the columns, overwriting `lat_col` whenever
a name contains `"lat"`, else overwriting `lon_col` whenever it contains
`"lon"` or `"lng"` (case-insensitively). -/
def findLatLonCols (cols : List String) : Option String × Option String :=
  cols.foldl
    (fun acc col =>
      if substrOf "lat" (pyLower col) then (some col, acc.2)
      else if substrOf "lon" (pyLower col) || substrOf "lng" (pyLower col) then (acc.1, some col)
      else acc)
    (none, none)

/-- `df.dropna(subset=[latCol, lonCol])`. -/
def dropNA (cols : List String) (latCol lonCol : String)
    (rows : List (List (Option String))) : List (List (Option String)) :=
  rows.filter (fun r => (getCell cols latCol r).isSome && (getCell cols lonCol r).isSome)

/-- The second `dropna` after `pd.to_numeric(..., errors='coerce')` on the
two coordinate columns: keep the rows whose coordinate cells parse.
(The source mutates the two columns in place; since the later property
construction excludes them, re-parsing on demand is equivalent.) -/
def dropNonNumeric (cols : List String) (latCol lonCol : String)
    (rows : List (List (Option String))) : List (List (Option String)) :=
  rows.filter (fun r =>
    (toNumeric (getCell cols latCol r)).isSome && (toNumeric (getCell cols lonCol r)).isSome)

/-- `df['show'] = df['show'].astype(str).str.upper().str.strip()` on one
row: `astype(str)` renders NaN as `"nan"`. -/
def mutateShow (cols : List String) (row : List (Option String)) : List (Option String) :=
  setCell cols "show" (some (pyStrip (pyUpper ((getCell cols "show" row).getD "nan")))) row

/-- The `show` filter block (scripts/csv_to_geojson.py lines 55-58 and
133-136): only applied when a `show` column exists. -/
def applyShowFilter (cols : List String)
    (rows : List (List (Option String))) : List (List (Option String)) :=
  if "show" ∈ cols then
    (rows.map (mutateShow cols)).filter (fun r => getCell cols "show" r = some "TRUE")
  else rows

/-- The surviving rows of the solar/medical pipeline, in order:
`dropna` → `to_numeric` + `dropna` → `show` filter. -/
def solarSurvivors (cols : List String) (latCol lonCol : String)
    (rows : List (List (Option String))) : List (List (Option String)) :=
  applyShowFilter cols (dropNonNumeric cols latCol lonCol (dropNA cols latCol lonCol rows))

/-- Feature assembly (scripts/csv_to_geojson.py lines 61-76): coordinates
`[lon, lat]` from the numeric coordinate cells, properties from every
other column, stringified with NaN as `""`. -/
def solarFeature (cols : List String) (latCol lonCol : String)
    (row : List (Option String)) : Feature :=
  { coords := [(toNumeric (getCell cols lonCol row)).getD 0,
               (toNumeric (getCell cols latCol row)).getD 0]
  , props :=
      (cols.filter (fun c => c ≠ latCol ∧ c ≠ lonCol)).map
        (fun c => (c, some ((getCell cols c row).getD ""))) }

/-- `fetch_and_convert_solar` (scripts/csv_to_geojson.py lines 9-85),
restricted to its in-memory part: lower-case and strip the column names,
sniff the coordinate columns, and either convert the surviving rows or —
when a coordinate column cannot be found — return an empty collection. -/
def fetch_and_convert_solar (t : PTable) : FeatureCollection :=
  let cols := t.cols.map (fun c => pyLower (pyStrip c))
  match findLatLonCols cols with
  | (some latCol, some lonCol) =>
    { features := (solarSurvivors cols latCol lonCol t.rows).map (solarFeature cols latCol lonCol) }
  | _ => { features := [] }

/-- `fetch_and_convert_medical` (scripts/csv_to_geojson.py lines 87-163)
has a body character-identical to `fetch_and_convert_solar` apart from
the URL and debug file name, which are outside the modelled part. -/
def fetch_and_convert_medical : PTable → FeatureCollection :=
  fetch_and_convert_solar

/-! ## Spec-modelled numeric cleaning -/

/-- Modelled from the spec: no function named `cleanNumeric` exists under
`src/`; the spec (§4.1, §8) describes it as stripping thousands-separator
commas, a currency glyph, and spaces, parsing as a decimal number, and
yielding `0` for empty or unparseable input.  The spec does not name the
currency glyph; `'$'` is used here, which the claim's inputs do not
contain. -/
def cleanNumeric (s : String) : ℚ :=
  let cleaned := pyReplace ['$'] [] (pyReplace [' '] [] (pyReplace [','] [] s.toList))
  match parseDecimal cleaned with
  | some q => q
  | none => 0

/-- Does a column name contain `"lat"` (case-insensitively)?  The
characterizing predicate of the sniffing loop's first branch. -/
def latMatches (c : String) : Bool := substrOf "lat" (pyLower c)

/-- Does a column name reach and satisfy the sniffing loop's `elif`
branch: no `"lat"` substring, but a `"lon"` or `"lng"` substring? -/
def lonMatches (c : String) : Bool :=
  !latMatches c && (substrOf "lon" (pyLower c) || substrOf "lng" (pyLower c))

/-! # Lemmas and claim theorems -/

/-- The loop of `convert_csv_to_geojson`, characterized: the emitted
features are the rows' kept results in order, `skipped_count` counts the
dropped rows, `processed_count` counts the kept ones. -/
lemma foldl_convertStep_spec (rows : List Row) : ∀ st : ConvState,
    (rows.foldl convertStep st).features = st.features ++ rows.filterMap processRow ∧
    (rows.foldl convertStep st).skipped
      = st.skipped + rows.countP (fun r => (processRow r).isNone) ∧
    (rows.foldl convertStep st).processed
      = st.processed + (rows.filterMap processRow).length := by
  induction rows with
  | nil => intro st; simp
  | cons r rows ih =>
    intro st
    rw [List.foldl_cons]
    cases hp : processRow r with
    | none =>
      have h := ih { st with skipped := st.skipped + 1 }
      simp only [convertStep, hp, List.filterMap_cons, List.countP_cons, Option.isNone_none]
      refine ⟨h.1, ?_, h.2.2⟩
      rw [h.2.1]; simp; omega
    | some f =>
      have h := ih { st with features := st.features ++ [f], processed := st.processed + 1 }
      simp only [convertStep, hp, List.filterMap_cons, List.countP_cons, Option.isNone_some]
      refine ⟨?_, ?_, ?_⟩
      · rw [h.1]; simp
      · rw [h.2.1]; simp
      · rw [h.2.2]; simp; omega

/-- Each row contributes to exactly one side of the tally. -/
lemma filterMap_length_add_countP (rows : List Row) :
    (rows.filterMap processRow).length
      + rows.countP (fun r => (processRow r).isNone) = rows.length := by
  induction rows with
  | nil => simp
  | cons r rows ih =>
    cases hp : processRow r with
    | none =>
      simp only [List.filterMap_cons, List.countP_cons, hp, Option.isNone_none,
        eq_self_iff_true, if_true, List.length_cons]
      omega
    | some f =>
      simp only [List.filterMap_cons, List.countP_cons, hp, Option.isNone_some,
        Bool.false_eq_true, if_false, List.length_cons]
      omega

/-- C10: row accounting invariant of the marathon CSV converter — every
input row either contributes exactly one Feature or increments the
skipped count by one, so `features + skipped = rows` and
`processed = features`. -/
theorem C10_row_accounting (rows : List Row) :
    (convert_csv_to_geojson rows).features.length
        + (convert_csv_to_geojson rows).skipped = rows.length ∧
    (convert_csv_to_geojson rows).processed
        = (convert_csv_to_geojson rows).features.length := by
  have h := foldl_convertStep_spec rows ⟨[], 0, 0⟩
  unfold convert_csv_to_geojson
  rw [h.1, h.2.1, h.2.2]
  simpa using filterMap_length_add_countP rows

/-- C4 counterexample: on the empty string the date-cleaning function
returns `None` (serialized as JSON `null`), not the empty string the
spec's equation `parseDate("") == ""` demands. -/
theorem C4_counterexample : parse_date "" = none ∧ parse_date "" ≠ some "" := by
  exact ⟨by decide, by decide⟩

/-- C4 (amended): the slash equation and the pass-through equation hold
as stated; empty input yields `None`, not `""`. -/
theorem C4_parse_date_equations :
    parse_date "25/12/2024" = some "2024-12-25" ∧
    parse_date "" = none ∧
    parse_date "not-a-date" = some "not-a-date" := by
  exact ⟨by decide, by decide, by decide⟩

/-- C5: the spec-modelled numeric cleaning function strips separators
and yields `0` (never an error — it is a total function) on empty or
unparseable input: `cleanNumeric "1,234.50" = 1234.5`,
`cleanNumeric "" = 0`, `cleanNumeric "abc" = 0`. -/
theorem C5_cleanNumeric_equations :
    cleanNumeric "1,234.50" = 1234.5 ∧ cleanNumeric "" = 0 ∧ cleanNumeric "abc" = 0 := by
  refine ⟨?_, by decide, by decide⟩
  have h : (1234.5 : ℚ) = mkRat 2469 2 := by norm_num [Rat.ofScientific_def]
  rw [h]; decide

/-- C2: a row whose filter-field value, stripped and upper-cased, is not
exactly `"TRUE"` yields no Feature — in the marathon converter it is
skipped with `skipped_count` incremented by one, and in the solar/medical
variants every row surviving the `show` filter has `show = "TRUE"`. -/
theorem C2_filter_field_excludes :
    (∀ row : Row, pyUpper (pyStrip (Row.get row "show?")) ≠ "TRUE" →
      processRow row = none ∧
      ∀ st : ConvState, convertStep st row = { st with skipped := st.skipped + 1 }) ∧
    (∀ (cols : List String) (rows : List (List (Option String)))
        (r : List (Option String)), "show" ∈ cols → r ∈ applyShowFilter cols rows →
      getCell cols "show" r = some "TRUE") := by
  constructor
  · intro row h
    have hpr : processRow row = none := by simp [processRow, h]
    exact ⟨hpr, fun st => by simp [convertStep, hpr]⟩
  · intro cols rows r hshow hr
    simp only [applyShowFilter, if_pos hshow] at hr
    simpa using (List.mem_filter.mp hr).2

theorem C2_witness :
    processRow [("show?", " maybe ")] = none ∧
    convertStep ⟨[], 0, 0⟩ [("show?", " maybe ")]
      = { features := [], skipped := 1, processed := 0 } ∧
    getCell ["show", "x"] "show" [some "TRUE", some "v"] = some "TRUE" := by
  refine ⟨(C2_filter_field_excludes.1 _ (by decide)).1, ?_, ?_⟩
  · exact (C2_filter_field_excludes.1 [("show?", " maybe ")] (by decide)).2 ⟨[], 0, 0⟩
  · exact C2_filter_field_excludes.2 ["show", "x"] [[some "TRUE", some "v"]]
      [some "TRUE", some "v"] (by decide) (by decide)

/-- C7: a row whose cleaned `Name` or `City` is empty or the sentinel
`"#REF!"` yields no Feature and increments the skipped tally by one. -/
theorem C7_required_fields (row : Row)
    (h : clean_text (Row.get row "Name") = "" ∨ clean_text (Row.get row "Name") = "#REF!" ∨
         clean_text (Row.get row "City") = "" ∨ clean_text (Row.get row "City") = "#REF!") :
    processRow row = none ∧
    ∀ st : ConvState, convertStep st row = { st with skipped := st.skipped + 1 } := by
  have hpr : processRow row = none := by
    simp only [processRow]
    split
    · rfl
    · split
      all_goals simp [h]
  exact ⟨hpr, fun st => by simp [convertStep, hpr]⟩

theorem C7_witness :
    processRow [("show?", "TRUE"), ("lat", "1"), ("lon", "2"),
      ("Name", "#REF!"), ("City", "X")] = none ∧
    convertStep ⟨[], 0, 0⟩ [("show?", "TRUE"), ("lat", "1"), ("lon", "2"),
      ("Name", "#REF!"), ("City", "X")]
      = { features := [], skipped := 1, processed := 0 } := by
  have h := C7_required_fields
    [("show?", "TRUE"), ("lat", "1"), ("lon", "2"), ("Name", "#REF!"), ("City", "X")]
    (Or.inr (Or.inl (by decide)))
  exact ⟨h.1, h.2 ⟨[], 0, 0⟩⟩

/-- C8: in the permissive solar/medical variants, when no latitude- or
no longitude-bearing column is sniffed, the conversion returns a
FeatureCollection with an empty features list instead of raising. -/
theorem C8_missing_cols_empty_output (t : PTable)
    (h : (findLatLonCols (t.cols.map (fun c => pyLower (pyStrip c)))).1 = none ∨
         (findLatLonCols (t.cols.map (fun c => pyLower (pyStrip c)))).2 = none) :
    fetch_and_convert_solar t = ⟨[]⟩ ∧ fetch_and_convert_medical t = ⟨[]⟩ := by
  have hs : fetch_and_convert_solar t = ⟨[]⟩ := by
    simp only [fetch_and_convert_solar]
    cases hf : findLatLonCols (t.cols.map fun c => pyLower (pyStrip c)) with
    | mk a b =>
      cases a with
      | some lc =>
        cases b with
        | some rc => exfalso; rw [hf] at h; simp at h
        | none => rfl
      | none => rfl
  exact ⟨hs, hs⟩

theorem C8_witness :
    fetch_and_convert_solar ⟨["name"], [[some "x"]]⟩ = ⟨[]⟩ ∧
    fetch_and_convert_medical ⟨["name"], [[some "x"]]⟩ = ⟨[]⟩ :=
  C8_missing_cols_empty_output ⟨["name"], [[some "x"]]⟩ (Or.inl (by decide))

/-- Inversion of the marathon per-row step: a kept row's feature carries
`[lon, lat]` built from the two successfully parsed coordinate columns. -/
lemma processRow_eq_some {row : Row} {f : Feature} (h : processRow row = some f) :
    ∃ lat lon, clean_coordinate (pyStrip (Row.get row "lat")) = some lat ∧
      clean_coordinate (pyStrip (Row.get row "lon")) = some lon ∧ f.coords = [lon, lat] := by
  simp only [processRow] at h
  split at h
  · exact absurd h (by simp)
  · split at h
    · rename_i lat lon heqlat heqlon
      split at h
      · exact absurd h (by simp)
      · injection h with h'
        subst h'
        exact ⟨lat, lon, heqlat, heqlon, rfl⟩
    · exact absurd h (by simp)

/-- Inversion of the pandas update-variant per-row step: a kept row's
feature carries `[lon, lat]` from the `Longitude`/`Latitude` columns,
and both passed the explicit range check. -/
lemma processRowUpdate_eq_some {cols : List String} {row : List (Option String)} {f : Feature}
    (h : processRowUpdate cols row = some f) :
    ∃ lat lon, toNumeric (getCell cols "Latitude" row) = some lat ∧
      toNumeric (getCell cols "Longitude" row) = some lon ∧ f.coords = [lon, lat] ∧
      -90 ≤ lat ∧ lat ≤ 90 ∧ -180 ≤ lon ∧ lon ≤ 180 := by
  simp only [processRowUpdate] at h
  split at h
  · rename_i lon lat heqlon heqlat
    split at h
    · exact absurd h (by simp)
    · rename_i hrange
      push_neg at hrange
      injection h with h'
      subst h'
      exact ⟨lat, lon, heqlat, heqlon, rfl, hrange.1.1, hrange.1.2, hrange.2.1, hrange.2.2⟩
  · exact absurd h (by simp)

/-- C1 counterexample: the marathon CSV converter performs no range
check — a row with `lat = 1000` (and `show? = TRUE`, valid name/city)
produces a Feature with latitude 1000, outside `[-90, 90]`. -/
theorem C1_counterexample :
    (convert_csv_to_geojson
        [[("show?", "TRUE"), ("lat", "1000"), ("lon", "0"), ("Name", "A"), ("City", "B")]]
      ).features.map Feature.coords = [[0, 1000]] ∧
    ¬ ((1000 : ℚ) ≤ 90) := by
  exact ⟨by decide, by decide⟩

/-- C1 (amended): only the pandas update variant range-checks — each of
its emitted Features has `lat ∈ [-90, 90]` and `lon ∈ [-180, 180]`; the
marathon CSV converter merely requires both coordinates to parse, so
each of its Features comes from a row whose two coordinate columns
parsed (with no range restriction). -/
theorem C1_range_invariant :
    (∀ (t : PTable) (f : Feature), f ∈ (fetch_and_convert_to_geojson t).features →
      ∃ lon lat, f.coords = [lon, lat] ∧ -90 ≤ lat ∧ lat ≤ 90 ∧ -180 ≤ lon ∧ lon ≤ 180) ∧
    (∀ (rows : List Row) (f : Feature), f ∈ (convert_csv_to_geojson rows).features →
      ∃ r ∈ rows, processRow r = some f ∧
        ∃ lat lon, clean_coordinate (pyStrip (Row.get r "lat")) = some lat ∧
          clean_coordinate (pyStrip (Row.get r "lon")) = some lon) := by
  constructor
  · intro t f hf
    simp only [fetch_and_convert_to_geojson] at hf
    obtain ⟨r, hr, hpr⟩ := List.mem_filterMap.mp hf
    obtain ⟨lat, lon, _, _, hcoords, h1, h2, h3, h4⟩ := processRowUpdate_eq_some hpr
    exact ⟨lon, lat, hcoords, h1, h2, h3, h4⟩
  · intro rows f hf
    have hspec := (foldl_convertStep_spec rows ⟨[], 0, 0⟩).1
    unfold convert_csv_to_geojson at hf
    rw [hspec] at hf
    simp only [List.nil_append] at hf
    obtain ⟨r, hr, hpr⟩ := List.mem_filterMap.mp hf
    obtain ⟨lat, lon, hlat, hlon, _⟩ := processRow_eq_some hpr
    exact ⟨r, hr, hpr, lat, lon, hlat, hlon⟩

theorem C1_range_witness :
    (∃ lon lat,
      ((fetch_and_convert_to_geojson ⟨["Latitude", "Longitude", "Name"],
          [[some "10", some "20", some "x"]]⟩).features.getD 0 ⟨[], []⟩).coords = [lon, lat] ∧
      -90 ≤ lat ∧ lat ≤ 90 ∧ -180 ≤ lon ∧ lon ≤ 180) ∧
    (∃ r ∈ ([[("show?", "TRUE"), ("lat", "10"), ("lon", "20"),
        ("Name", "A"), ("City", "B")]] : List Row),
      processRow r = some ((convert_csv_to_geojson
          [[("show?", "TRUE"), ("lat", "10"), ("lon", "20"), ("Name", "A"), ("City", "B")]]
        ).features.getD 0 ⟨[], []⟩) ∧
      ∃ lat lon, clean_coordinate (pyStrip (Row.get r "lat")) = some lat ∧
        clean_coordinate (pyStrip (Row.get r "lon")) = some lon) := by
  refine ⟨C1_range_invariant.1 ⟨["Latitude", "Longitude", "Name"], [[some "10", some "20", some "x"]]⟩
      ((fetch_and_convert_to_geojson ⟨["Latitude", "Longitude", "Name"],
        [[some "10", some "20", some "x"]]⟩).features.getD 0 ⟨[], []⟩) (by decide),
    C1_range_invariant.2 [[("show?", "TRUE"), ("lat", "10"), ("lon", "20"),
        ("Name", "A"), ("City", "B")]]
      ((convert_csv_to_geojson [[("show?", "TRUE"), ("lat", "10"), ("lon", "20"),
        ("Name", "A"), ("City", "B")]]).features.getD 0 ⟨[], []⟩) (by decide)⟩

/-- C3: every emitted Feature of the two marathon variants has its
coordinates array equal to `[longitude, latitude]` — longitude from the
`lon`/`Longitude` column, latitude from the `lat`/`Latitude` column —
independently of the column order of the source table (rows are looked
up by column name). -/
theorem C3_coordinate_order :
    (∀ (rows : List Row) (f : Feature), f ∈ (convert_csv_to_geojson rows).features →
      ∃ r ∈ rows, ∃ lat lon, clean_coordinate (pyStrip (Row.get r "lat")) = some lat ∧
        clean_coordinate (pyStrip (Row.get r "lon")) = some lon ∧ f.coords = [lon, lat]) ∧
    (∀ (t : PTable) (f : Feature), f ∈ (fetch_and_convert_to_geojson t).features →
      ∃ r ∈ t.rows, ∃ lat lon,
        toNumeric (getCell (t.cols.map pyStrip) "Latitude" r) = some lat ∧
        toNumeric (getCell (t.cols.map pyStrip) "Longitude" r) = some lon ∧
        f.coords = [lon, lat]) := by
  constructor
  · intro rows f hf
    have hspec := (foldl_convertStep_spec rows ⟨[], 0, 0⟩).1
    unfold convert_csv_to_geojson at hf
    rw [hspec] at hf
    simp only [List.nil_append] at hf
    obtain ⟨r, hr, hpr⟩ := List.mem_filterMap.mp hf
    obtain ⟨lat, lon, hlat, hlon, hc⟩ := processRow_eq_some hpr
    exact ⟨r, hr, lat, lon, hlat, hlon, hc⟩
  · intro t f hf
    simp only [fetch_and_convert_to_geojson] at hf
    obtain ⟨r, hr, hpr⟩ := List.mem_filterMap.mp hf
    obtain ⟨lat, lon, hlat, hlon, hc, _⟩ := processRowUpdate_eq_some hpr
    exact ⟨r, hr, lat, lon, hlat, hlon, hc⟩

theorem C3_witness :
    (∃ r ∈ ([[("lat", "-33.5"), ("lon", "151.2"), ("show?", "true"),
        ("Name", "S"), ("City", "T")]] : List Row),
      ∃ lat lon, clean_coordinate (pyStrip (Row.get r "lat")) = some lat ∧
        clean_coordinate (pyStrip (Row.get r "lon")) = some lon ∧
        ((convert_csv_to_geojson
            [[("lat", "-33.5"), ("lon", "151.2"), ("show?", "true"),
              ("Name", "S"), ("City", "T")]]).features.getD 0 ⟨[], []⟩).coords = [lon, lat]) ∧
    (∃ r ∈ ([[some "7", some "8"]] : List (List (Option String))),
      ∃ lat lon,
        toNumeric (getCell (["Latitude", "Longitude"].map pyStrip) "Latitude" r) = some lat ∧
        toNumeric (getCell (["Latitude", "Longitude"].map pyStrip) "Longitude" r) = some lon ∧
        ((fetch_and_convert_to_geojson ⟨["Latitude", "Longitude"],
            [[some "7", some "8"]]⟩).features.getD 0 ⟨[], []⟩).coords = [lon, lat]) := by
  refine ⟨C3_coordinate_order.1 [[("lat", "-33.5"), ("lon", "151.2"), ("show?", "true"),
        ("Name", "S"), ("City", "T")]]
      ((convert_csv_to_geojson [[("lat", "-33.5"), ("lon", "151.2"), ("show?", "true"),
        ("Name", "S"), ("City", "T")]]).features.getD 0 ⟨[], []⟩) (by decide),
    C3_coordinate_order.2 ⟨["Latitude", "Longitude"], [[some "7", some "8"]]⟩
      ((fetch_and_convert_to_geojson ⟨["Latitude", "Longitude"],
        [[some "7", some "8"]]⟩).features.getD 0 ⟨[], []⟩) (by decide)⟩

/-- C6 counterexample: with two latitude-bearing columns `lata, latb`
(in that order), the sniffing loop chooses `latb` — the last match,
not the first — and the emitted feature uses `latb`'s value as its
latitude. -/
theorem C6_counterexample :
    (findLatLonCols ["lata", "latb"]).1 = some "latb" ∧
    (findLatLonCols ["lata", "latb"]).1 ≠ some "lata" ∧
    (fetch_and_convert_solar ⟨["lata", "latb", "lon"], [[some "10", some "20", some "30"]]⟩
      ).features.map Feature.coords = [[30, 20]] := by
  exact ⟨by decide, by decide, by decide⟩

/-- The sniffing fold, characterized with an arbitrary accumulator: each
slot holds the last matching column, or falls back to the accumulator. -/
lemma findLatLonCols_acc (cols : List String) : ∀ acc : Option String × Option String,
    cols.foldl
      (fun acc col =>
        if substrOf "lat" (pyLower col) then (some col, acc.2)
        else if substrOf "lon" (pyLower col) || substrOf "lng" (pyLower col) then (acc.1, some col)
        else acc)
      acc
    = ((cols.reverse.find? latMatches).or acc.1, (cols.reverse.find? lonMatches).or acc.2) := by
  induction cols using List.reverseRecOn with
  | nil => intro acc; simp
  | append_singleton cs c ih =>
    intro acc
    rw [List.foldl_append, ih, List.reverse_append]
    simp only [List.reverse_cons, List.reverse_nil, List.nil_append, List.singleton_append,
      List.foldl_cons, List.foldl_nil, List.find?_cons]
    by_cases hl : latMatches c = true
    · have hl' : substrOf "lat" (pyLower c) = true := hl
      have hlon : lonMatches c = false := by simp [lonMatches, hl]
      rw [if_pos hl', hl, hlon]
      simp
    · have hl' : substrOf "lat" (pyLower c) = false := by simpa using hl
      have hlf : latMatches c = false := by simpa using hl
      rw [if_neg (by simp [hl']), hlf]
      by_cases hn : (substrOf "lon" (pyLower c) || substrOf "lng" (pyLower c)) = true
      · have hlon : lonMatches c = true := by simp [lonMatches, latMatches, hl', hn]
        rw [if_pos hn, hlon]
        simp
      · have hlon : lonMatches c = false := by
          simp only [lonMatches, latMatches, hl']
          simpa using hn
        rw [if_neg hn, hlon]

/-- C6 (amended): the column chosen as latitude (resp. longitude) is the
*last* column in column order whose name contains `"lat"` (resp. reaches
the `elif` and contains `"lon"` or `"lng"`) — the loop overwrites on
every match, so later matches win, not the first one. -/
theorem C6_last_match (cols : List String) :
    findLatLonCols cols
      = (cols.reverse.find? latMatches, cols.reverse.find? lonMatches) := by
  unfold findLatLonCols
  rw [findLatLonCols_acc]
  simp

/-- A replacement pass leaves a string without any occurrence of the
pattern unchanged. -/
lemma pyReplaceGo_of_not_infix {p r : List Char} :
    ∀ (n : Nat) (s : List Char), ¬ p <:+: s → pyReplaceGo p r n s = s := by
  intro n
  induction n with
  | zero => intro s _; cases s <;> rfl
  | succ n ih =>
    intro s h
    cases s with
    | nil => rfl
    | cons c cs =>
      have hp : ¬ p.isPrefixOf (c :: cs) = true := fun hp =>
        h (List.isPrefixOf_iff_prefix.mp hp).isInfix
      simp only [pyReplaceGo, if_neg hp]
      exact congrArg (c :: ·) (ih cs (fun hi => h (List.infix_cons hi)))

/-- Heads are preserved by a two-character replacement pass: if the input
does not start with `b` and the replacement character is not `b`, neither
does the output. -/
lemma pyReplaceGo_head {a b q : Char} (hqb : q ≠ b) :
    ∀ (n : Nat) (cs : List Char), (∀ u, cs ≠ b :: u) →
      ∀ t, pyReplaceGo [a, b] [q] n cs ≠ b :: t := by
  intro n cs hcs t
  cases n with
  | zero =>
    cases cs with
    | nil => simp [pyReplaceGo]
    | cons c cs' => exact hcs t
  | succ n =>
    cases cs with
    | nil => simp [pyReplaceGo]
    | cons c cs' =>
      by_cases hp : [a, b].isPrefixOf (c :: cs') = true
      · simp only [pyReplaceGo, if_pos hp]
        intro hcontra
        have hqb' : q = b := by
          have := congrArg List.head? hcontra
          simpa using this
        exact hqb hqb'
      · simp only [pyReplaceGo, if_neg hp]
        intro hcontra
        have hcb : c = b := by
          have := congrArg List.head? hcontra
          simpa using this
        exact hcs cs' (by rw [hcb])

/-- After one pass replacing the two-character pattern `[a, b]` by a
character that is neither `a` nor `b`, no occurrence of `[a, b]` remains. -/
lemma pyReplaceGo_no_infix {a b q : Char} (hqa : q ≠ a) (hqb : q ≠ b) :
    ∀ (n : Nat) (s : List Char), s.length ≤ n →
      ¬ [a, b] <:+: pyReplaceGo [a, b] [q] n s := by
  intro n
  induction n with
  | zero =>
    intro s hs
    have hnil : s = [] := List.eq_nil_of_length_eq_zero (Nat.le_zero.mp hs)
    subst hnil
    simp [pyReplaceGo]
  | succ n ih =>
    intro s hs
    cases s with
    | nil => simp [pyReplaceGo]
    | cons c cs =>
      by_cases hp : [a, b].isPrefixOf (c :: cs) = true
      · have hpre : [a, b] <+: c :: cs := List.isPrefixOf_iff_prefix.mp hp
        obtain ⟨hac, hpre'⟩ := List.cons_prefix_cons.mp hpre
        obtain ⟨cs₂, hcs⟩ : ∃ cs₂, cs = b :: cs₂ := by
          cases cs with
          | nil => simp at hpre'
          | cons x xs =>
            obtain ⟨hbx, _⟩ := List.cons_prefix_cons.mp hpre'
            exact ⟨xs, by rw [← hbx]⟩
        subst hcs
        simp only [pyReplaceGo, if_pos hp, List.length_cons, List.length_nil,
          List.singleton_append, List.drop_succ_cons, List.drop_zero]
        intro hinf
        rcases List.infix_cons_iff.mp hinf with hpf | hinf2
        · exact hqa (List.cons_prefix_cons.mp hpf).1.symm
        · exact ih cs₂ (by simp at hs; omega) hinf2
      · simp only [pyReplaceGo, if_neg hp]
        intro hinf
        rcases List.infix_cons_iff.mp hinf with hpf | hinf2
        · obtain ⟨hac, hpre'⟩ := List.cons_prefix_cons.mp hpf
          obtain ⟨t, ht⟩ := hpre'
          have hcs : ∀ u, cs ≠ b :: u := by
            intro u hu
            apply hp
            rw [List.isPrefixOf_iff_prefix, hu, ← hac]
            exact ⟨u, rfl⟩
          exact pyReplaceGo_head hqb n cs hcs t ht.symm
        · exact ih cs (by simp at hs; omega) hinf2

/-- After the right-quote pass, no `['â', '€']` occurrence remains. -/
lemma pyReplace_no_infix {a b q : Char} (hqa : q ≠ a) (hqb : q ≠ b) (s : List Char) :
    ¬ [a, b] <:+: pyReplace [a, b] [q] s := by
  simp only [pyReplace]
  exact pyReplaceGo_no_infix hqa hqb s.length s le_rfl

lemma pyReplace_of_not_infix {p r s : List Char} (h : ¬ p <:+: s) :
    pyReplace p r s = s := by
  cases p with
  | nil => rfl
  | cons ph pt => exact pyReplaceGo_of_not_infix _ _ h

/-- C9: the en-dash and em-dash entries of `clean_text`'s replacement
table are dead code — after the earlier right-quote entry has replaced
every occurrence of `['â', '€']`, the string contains no occurrence of
the dash entries' pattern `['â', '€', '"']` (which extends it), so
applying them never changes the string, and the full table is equivalent
to its first eleven entries. -/
theorem C9_dash_entries_dead (s : List Char) :
    pyReplace ['â', '€', '"'] ['–'] (applyTable (cleanTextTable.take 11) s)
      = applyTable (cleanTextTable.take 11) s ∧
    pyReplace ['â', '€', '"'] ['—'] (applyTable (cleanTextTable.take 11) s)
      = applyTable (cleanTextTable.take 11) s ∧
    applyTable cleanTextTable s = applyTable (cleanTextTable.take 11) s := by
  have hstep11 : applyTable (cleanTextTable.take 11) s
      = pyReplace ['â', '€'] ['"'] (applyTable (cleanTextTable.take 10) s) := by
    rw [show cleanTextTable.take 11
        = cleanTextTable.take 10 ++ [(['â', '€'], ['"'])] from rfl]
    simp [applyTable, List.foldl_append]
  have hno : ¬ ['â', '€'] <:+: applyTable (cleanTextTable.take 11) s := by
    rw [hstep11]
    exact pyReplace_no_infix (by decide) (by decide) _
  have hdead : ∀ r, pyReplace ['â', '€', '"'] r (applyTable (cleanTextTable.take 11) s)
      = applyTable (cleanTextTable.take 11) s := by
    intro r
    apply pyReplace_of_not_infix
    intro h3
    exact hno (List.IsInfix.trans ⟨[], ['"'], rfl⟩ h3)
  have hfull : applyTable cleanTextTable s
      = pyReplace ['â', '€', '"'] ['—']
          (pyReplace ['â', '€', '"'] ['–'] (applyTable (cleanTextTable.take 11) s)) := by
    nth_rewrite 1 [show cleanTextTable = cleanTextTable.take 11
        ++ [(['â', '€', '"'], ['–']), (['â', '€', '"'], ['—'])] from rfl]
    simp [applyTable, List.foldl_append]
  exact ⟨hdead _, hdead _, by rw [hfull, hdead, hdead]⟩

end MapboxVT
